import Mathlib

/-!
Shallow embedding of the ultimate-weather-AI repository
(src/weather/app.py and src/weather/weather_ai.py).

Numbers are modelled with exact rationals.  Calendar dates are modelled as
integer day indices (days since the Unix epoch in local time); the conversion
from a POSIX timestamp to a local calendar date (datetime.fromtimestamp(...)
.date()) is timezone dependent and is therefore a parameter `dateOf`.
Python round(x, n) is banker rounding (ties to even) and is modelled by
`pyRound`; Python int(x) truncates toward zero and is modelled by `pyInt`.
-/

/-- Round a rational to the nearest integer, ties to the even integer.
This is the exact-arithmetic semantics of Python round(x). -/
def roundHalfEven (q : ℚ) : ℤ :=
  if q - ⌊q⌋ < 1/2 then ⌊q⌋
  else if 1/2 < q - ⌊q⌋ then ⌊q⌋ + 1
  else if ⌊q⌋ % 2 = 0 then ⌊q⌋ else ⌊q⌋ + 1

/-- Python round(q, n): round to n decimal digits, ties to even. -/
def pyRound (n : ℕ) (q : ℚ) : ℚ :=
  (roundHalfEven (q * 10 ^ n) : ℚ) / 10 ^ n

/-- Python int(q): truncation toward zero. -/
def pyInt (q : ℚ) : ℤ :=
  if 0 ≤ q then ⌊q⌋ else ⌈q⌉

/-- Arithmetic mean of a list of rationals (np.mean under exact arithmetic). -/
def mean (l : List ℚ) : ℚ := l.sum / l.length

/-- Python min(list) for the nonempty lists that occur in the code. -/
def pyMin : List ℚ → ℚ
  | [] => 0
  | x :: xs => xs.foldl min x

/-- Python max(list) for the nonempty lists that occur in the code. -/
def pyMax : List ℚ → ℚ
  | [] => 0
  | x :: xs => xs.foldl max x

/-- Python max(iterable, key=key): the first element of the iterable whose
key is maximal (a later element replaces the current best only when its key
is strictly larger). -/
def pyMaxBy (key : String → ℕ) : List String → String
  | [] => ""
  | x :: xs => xs.foldl (fun b y => if key b < key y then y else b) x

/-- The distinct elements of a list in order of first appearance. -/
def firstOccs (l : List String) : List String :=
  l.foldl (fun acc x => if x ∈ acc then acc else acc ++ [x]) []

/-! Lemmas about the rounding helpers. -/

theorem roundHalfEven_spec (q : ℚ) :
    (roundHalfEven q = ⌊q⌋ ∧ q - ⌊q⌋ ≤ 1/2) ∨
      (roundHalfEven q = ⌊q⌋ + 1 ∧ 1/2 ≤ q - ⌊q⌋) := by
  unfold roundHalfEven
  split_ifs with h1 h2 h3 <;> [left; right; left; right] <;>
    refine ⟨rfl, by linarith⟩

theorem roundHalfEven_intCast (n : ℤ) : roundHalfEven (n : ℚ) = n := by
  unfold roundHalfEven
  rw [Int.floor_intCast]
  norm_num

theorem roundHalfEven_mono {q q' : ℚ} (h : q ≤ q') :
    roundHalfEven q ≤ roundHalfEven q' := by
  by_contra hlt
  push_neg at hlt
  have hf : ⌊q⌋ ≤ ⌊q'⌋ := Int.floor_mono h
  rcases roundHalfEven_spec q with ⟨e1, h1⟩ | ⟨e1, h1⟩ <;>
    rcases roundHalfEven_spec q' with ⟨e2, h2⟩ | ⟨e2, h2⟩ <;>
      rw [e1, e2] at hlt
  · omega
  · omega
  · have hq : ⌊q⌋ = ⌊q'⌋ := by omega
    have hc : ((⌊q⌋ : ℤ) : ℚ) = ((⌊q'⌋ : ℤ) : ℚ) := by exact_mod_cast hq
    have hqe : q = q' := le_antisymm h (by linarith)
    subst hqe
    rw [e1] at e2
    omega
  · omega

theorem pyRound_mono (n : ℕ) {q q' : ℚ} (h : q ≤ q') :
    pyRound n q ≤ pyRound n q' := by
  unfold pyRound
  have hp : (0 : ℚ) < 10 ^ n := by positivity
  gcongr
  exact_mod_cast roundHalfEven_mono (mul_le_mul_of_nonneg_right h hp.le)

theorem pyRound_intCast (n : ℕ) (k : ℤ) :
    pyRound n ((k : ℚ) / 10 ^ n) = (k : ℚ) / 10 ^ n := by
  unfold pyRound
  have hp : (10 : ℚ) ^ n ≠ 0 := by positivity
  rw [div_mul_cancel₀ _ hp, roundHalfEven_intCast]

theorem pyRound_nonneg (n : ℕ) {q : ℚ} (h : 0 ≤ q) : 0 ≤ pyRound n q := by
  unfold pyRound
  have hp : (0 : ℚ) < 10 ^ n := by positivity
  apply div_nonneg _ hp.le
  have h0 : roundHalfEven 0 ≤ roundHalfEven (q * 10 ^ n) :=
    roundHalfEven_mono (by nlinarith)
  have : roundHalfEven 0 = 0 := by
    have := roundHalfEven_intCast 0
    simpa using this
  exact_mod_cast this ▸ h0

theorem pyInt_eq_floor {q : ℚ} (h : 0 ≤ q) : pyInt q = ⌊q⌋ := by
  unfold pyInt
  exact if_pos h

/-! Lemmas about list minimum, maximum and mean. -/

theorem foldl_min_le_init (xs : List ℚ) : ∀ a : ℚ, xs.foldl min a ≤ a := by
  induction xs with
  | nil => intro a; exact le_refl a
  | cons z zs ih =>
      intro a
      calc zs.foldl min (min a z) ≤ min a z := ih (min a z)
        _ ≤ a := min_le_left _ _

theorem foldl_min_le_mem (xs : List ℚ) :
    ∀ (a y : ℚ), y ∈ xs → xs.foldl min a ≤ y := by
  induction xs with
  | nil => intro a y hy; cases hy
  | cons z zs ih =>
      intro a y hy
      rcases List.mem_cons.mp hy with h | h
      · subst h
        calc zs.foldl min (min a y) ≤ min a y := foldl_min_le_init zs _
          _ ≤ y := min_le_right _ _
      · exact ih (min a z) y h

theorem pyMin_le {l : List ℚ} {y : ℚ} (hy : y ∈ l) : pyMin l ≤ y := by
  cases l with
  | nil => cases hy
  | cons x xs =>
      rcases List.mem_cons.mp hy with h | h
      · subst h; exact foldl_min_le_init xs y
      · exact foldl_min_le_mem xs x y h

theorem init_le_foldl_max (xs : List ℚ) : ∀ a : ℚ, a ≤ xs.foldl max a := by
  induction xs with
  | nil => intro a; exact le_refl a
  | cons z zs ih =>
      intro a
      calc a ≤ max a z := le_max_left _ _
        _ ≤ zs.foldl max (max a z) := ih (max a z)

theorem mem_le_foldl_max (xs : List ℚ) :
    ∀ (a y : ℚ), y ∈ xs → y ≤ xs.foldl max a := by
  induction xs with
  | nil => intro a y hy; cases hy
  | cons z zs ih =>
      intro a y hy
      rcases List.mem_cons.mp hy with h | h
      · subst h
        calc y ≤ max a y := le_max_right _ _
          _ ≤ zs.foldl max (max a y) := init_le_foldl_max zs _
      · exact ih (max a z) y h

theorem le_pyMax {l : List ℚ} {y : ℚ} (hy : y ∈ l) : y ≤ pyMax l := by
  cases l with
  | nil => cases hy
  | cons x xs =>
      rcases List.mem_cons.mp hy with h | h
      · subst h; exact init_le_foldl_max xs y
      · exact mem_le_foldl_max xs x y h

theorem length_mul_le_sum (l : List ℚ) (m : ℚ) (h : ∀ y ∈ l, m ≤ y) :
    (l.length : ℚ) * m ≤ l.sum := by
  induction l with
  | nil => simp
  | cons x xs ih =>
      have hx : m ≤ x := h x (List.mem_cons_self x xs)
      have hxs : (xs.length : ℚ) * m ≤ xs.sum :=
        ih fun y hy => h y (List.mem_cons_of_mem x hy)
      simp only [List.sum_cons, List.length_cons]
      push_cast
      linarith

theorem sum_le_length_mul (l : List ℚ) (m : ℚ) (h : ∀ y ∈ l, y ≤ m) :
    l.sum ≤ (l.length : ℚ) * m := by
  induction l with
  | nil => simp
  | cons x xs ih =>
      have hx : x ≤ m := h x (List.mem_cons_self x xs)
      have hxs : xs.sum ≤ (xs.length : ℚ) * m :=
        ih fun y hy => h y (List.mem_cons_of_mem x hy)
      simp only [List.sum_cons, List.length_cons]
      push_cast
      linarith

theorem pyMin_le_mean {l : List ℚ} (h : l ≠ []) : pyMin l ≤ mean l := by
  have hlen : (0 : ℚ) < l.length := by
    have : 0 < l.length := List.length_pos.mpr h
    exact_mod_cast this
  rw [mean, le_div_iff₀ hlen]
  have := length_mul_le_sum l (pyMin l) (fun y hy => pyMin_le hy)
  linarith

theorem mean_le_pyMax {l : List ℚ} (h : l ≠ []) : mean l ≤ pyMax l := by
  have hlen : (0 : ℚ) < l.length := by
    have : 0 < l.length := List.length_pos.mpr h
    exact_mod_cast this
  rw [mean, div_le_iff₀ hlen]
  have := sum_le_length_mul l (pyMax l) (fun y hy => le_pyMax hy)
  linarith

theorem mean_nonneg {l : List ℚ} (h : ∀ y ∈ l, 0 ≤ y) : 0 ≤ mean l := by
  rw [mean]
  apply div_nonneg _ (by positivity)
  induction l with
  | nil => simp
  | cons x xs ih =>
      have hx : (0 : ℚ) ≤ x := h x (List.mem_cons_self x xs)
      have hxs := ih fun y hy => h y (List.mem_cons_of_mem x hy)
      simp only [List.sum_cons]
      linarith

theorem pyRound_intCast_eq (n : ℕ) (k : ℤ) : pyRound n (k : ℚ) = k := by
  unfold pyRound
  have hk : (k : ℚ) * 10 ^ n = ((k * 10 ^ n : ℤ) : ℚ) := by push_cast; ring
  have h10 : (10 : ℚ) ^ n ≠ 0 := by positivity
  rw [hk, roundHalfEven_intCast]
  push_cast
  field_simp

theorem pyRound_le_intCast (n : ℕ) {q : ℚ} {k : ℤ} (h : q ≤ (k : ℚ)) :
    pyRound n q ≤ (k : ℚ) := by
  calc pyRound n q ≤ pyRound n (k : ℚ) := pyRound_mono n h
    _ = (k : ℚ) := pyRound_intCast_eq n k

theorem intCast_le_pyRound (n : ℕ) {q : ℚ} {k : ℤ} (h : (k : ℚ) ≤ q) :
    (k : ℚ) ≤ pyRound n q := by
  calc (k : ℚ) = pyRound n (k : ℚ) := (pyRound_intCast_eq n k).symm
    _ ≤ pyRound n q := pyRound_mono n h

/-! Properties of pyMaxBy: the result is a member of the iterable and its key
is maximal among the members of the iterable. -/

theorem foldl_maxBy_mem (key : String → ℕ) (xs : List String) :
    ∀ b : String,
      xs.foldl (fun b y => if key b < key y then y else b) b ∈ b :: xs := by
  induction xs with
  | nil => intro b; exact List.mem_cons_self b []
  | cons z zs ih =>
      intro b
      rw [List.foldl_cons]
      have hstep : (if key b < key z then z else b) ∈ [b, z] := by
        split_ifs <;> simp
      have := ih (if key b < key z then z else b)
      rcases List.mem_cons.mp this with h | h
      · rw [h]
        rcases List.mem_pair.mp hstep with h2 | h2 <;> rw [h2] <;> simp
      · exact List.mem_cons_of_mem _ (List.mem_cons_of_mem _ h)

theorem le_key_foldl_maxBy (key : String → ℕ) (xs : List String) :
    ∀ (b y : String), y ∈ b :: xs →
      key y ≤ key (xs.foldl (fun b y => if key b < key y then y else b) b) := by
  induction xs with
  | nil =>
      intro b y hy
      rcases List.mem_cons.mp hy with h | h
      · subst h; exact le_refl _
      · cases h
  | cons z zs ih =>
      intro b y hy
      rw [List.foldl_cons]
      have hb : key b ≤ key (if key b < key z then z else b) := by
        split_ifs with hc
        · exact le_of_lt hc
        · exact le_refl _
      have hz : key z ≤ key (if key b < key z then z else b) := by
        split_ifs with hc
        · exact le_refl _
        · exact le_of_not_lt hc
      have hrec := ih (if key b < key z then z else b)
      have hself :
          key (if key b < key z then z else b) ≤
            key (zs.foldl (fun b y => if key b < key y then y else b)
              (if key b < key z then z else b)) :=
        hrec _ (List.mem_cons_self _ _)
      rcases List.mem_cons.mp hy with h | h
      · subst h
        exact le_trans hb hself
      · rcases List.mem_cons.mp h with h2 | h2
        · subst h2
          exact le_trans hz hself
        · exact hrec y (List.mem_cons_of_mem _ h2)

theorem pyMaxBy_mem (key : String → ℕ) {l : List String} (h : l ≠ []) :
    pyMaxBy key l ∈ l := by
  cases l with
  | nil => exact absurd rfl h
  | cons x xs => exact foldl_maxBy_mem key xs x

theorem le_key_pyMaxBy (key : String → ℕ) {l : List String} {y : String}
    (hy : y ∈ l) : key y ≤ key (pyMaxBy key l) := by
  cases l with
  | nil => cases hy
  | cons x xs => exact le_key_foldl_maxBy key xs x y hy

/-!
Data model of the forecast pipeline (src/weather/app.py).

A `RawReading` is one validated 3-hourly sample of the provider payload: the
fields of one entry of forecast_data["list"] that process_forecast_data reads
(item["dt"], item["main"]["temp"], item["main"]["humidity"],
item["clouds"]["all"], item["main"]["pressure"], item["wind"]["speed"],
item["weather"][0]["main"], item["weather"][0]["icon"]).
-/

structure RawReading where
  dt : ℤ
  temp : ℚ
  humidity : ℚ
  clouds : ℚ
  pressure : ℚ
  windSpeed : ℚ
  descMain : String
  icon : String
deriving DecidableEq

/-- One daily summary dictionary produced by process_forecast_data. -/
structure DailySummary where
  date : ℤ
  day : String
  min_temp : ℚ
  max_temp : ℚ
  avg_temp : ℚ
  humidity : ℤ
  cloud_cover : ℤ
  wind_speed : ℚ
  condition : String
  icon : String
  rain_probability : ℚ
  will_rain : Bool
deriving DecidableEq

/-- Weekday names used by strftime, anchored at the Unix epoch
(day index 0 = 1970-01-01, a Thursday). -/
def weekdayNames : List String :=
  ["Thursday", "Friday", "Saturday", "Sunday", "Monday", "Tuesday",
   "Wednesday"]

/-- Model of target_date.strftime with the weekday format for a day index. -/
def weekdayName (d : ℤ) : String :=
  weekdayNames.getD (d % 7).toNat ("")

/-- predict_rain_probability from app.py.  The trained LogisticRegression
model is represented by its predict_proba positive-class output `proba`
(an external scikit-learn computation); the function scales it to a
percentage and rounds to 1 decimal. -/
def predict_rain_probability (proba : ℚ → ℚ → ℚ → ℚ → ℚ)
    (humidity cloudiness pressure wind_speed : ℚ) : ℚ :=
  pyRound 1 (proba humidity cloudiness pressure wind_speed * 100)

/-- The daily summary dictionary that process_forecast_data appends for one
target date and its (nonempty) bucket of readings.  `setOrder` models the
iteration order of the Python set built from the description list: the
condition label is max(set(descriptions), key=descriptions.count). -/
def mkDailySummary (proba : ℚ → ℚ → ℚ → ℚ → ℚ)
    (setOrder : List String → List String) (d : ℤ)
    (bucket : List RawReading) : DailySummary :=
  let temps := bucket.map (·.temp)
  let humidities := bucket.map (·.humidity)
  let cloud_cover := bucket.map (·.clouds)
  let pressures := bucket.map (·.pressure)
  let wind_speeds := bucket.map (·.windSpeed)
  let descriptions := bucket.map (·.descMain)
  let icons := bucket.map (·.icon)
  let avg_humidity := mean humidities
  let avg_cloud := mean cloud_cover
  let avg_pressure := mean pressures
  let avg_wind := mean wind_speeds
  let rain_prob :=
    predict_rain_probability proba avg_humidity avg_cloud avg_pressure avg_wind
  { date := d
    day := weekdayName d
    min_temp := pyRound 1 (pyMin temps)
    max_temp := pyRound 1 (pyMax temps)
    avg_temp := pyRound 1 (mean temps)
    humidity := pyInt avg_humidity
    cloud_cover := pyInt avg_cloud
    wind_speed := pyRound 1 avg_wind
    condition :=
      pyMaxBy (fun s => descriptions.count s) (setOrder descriptions)
    icon := icons.headD ("")
    rain_probability := rain_prob
    will_rain := decide (rain_prob > 50) }

/-- process_forecast_data from app.py on validated readings.  The payload is
none when forecast_data is falsy or has no "list" key (the guard at the top
of the function).  Readings are grouped by local calendar date
(`dateOf item.dt`); for each of the next 4 days a summary is emitted exactly
when that date has a nonempty bucket. -/
def process_forecast_data (proba : ℚ → ℚ → ℚ → ℚ → ℚ)
    (setOrder : List String → List String) (dateOf : ℤ → ℤ) (today : ℤ)
    (payload : Option (List RawReading)) : List DailySummary :=
  match payload with
  | none => []
  | some items =>
      ([1, 2, 3, 4] : List ℤ).filterMap fun i =>
        let target_date := today + i
        let bucket := items.filter fun r => dateOf r.dt == target_date
        if bucket.isEmpty then none
        else some (mkDailySummary proba setOrder target_date bucket)

/-!
Raw (unvalidated) provider items.  process_forecast_data reads the fields of
each item of forecast_data["list"] with plain dictionary indexing and has no
exception handler, so a missing field raises a KeyError that propagates to
the caller.  A field that may be absent is an Option; `readReading` models
the sequence of accesses in source order (dt, temp, humidity, clouds,
pressure, wind speed, weather main, weather icon), failing with the first
missing key.
-/

structure RawItem where
  dt : Option ℤ
  mainTemp : Option ℚ
  mainHumidity : Option ℚ
  cloudsAll : Option ℚ
  mainPressure : Option ℚ
  windSpeed : Option ℚ
  weatherMain : Option String
  weatherIcon : Option String
deriving DecidableEq

/-- True when some field read by the grouping loop is missing. -/
def hasMissingField (it : RawItem) : Bool :=
  it.dt.isNone || it.mainTemp.isNone || it.mainHumidity.isNone ||
    it.cloudsAll.isNone || it.mainPressure.isNone || it.windSpeed.isNone ||
    it.weatherMain.isNone || it.weatherIcon.isNone

/-- Field extraction for one item, failing with the first missing key in the
order the source reads them. -/
def readReading (it : RawItem) : Except String RawReading :=
  match it.dt with
  | none => Except.error ("dt")
  | some dt =>
    match it.mainTemp with
    | none => Except.error ("temp")
    | some t =>
      match it.mainHumidity with
      | none => Except.error ("humidity")
      | some h =>
        match it.cloudsAll with
        | none => Except.error ("clouds")
        | some c =>
          match it.mainPressure with
          | none => Except.error ("pressure")
          | some p =>
            match it.windSpeed with
            | none => Except.error ("wind")
            | some w =>
              match it.weatherMain with
              | none => Except.error ("weather")
              | some dsc =>
                match it.weatherIcon with
                | none => Except.error ("icon")
                | some ic =>
                    Except.ok
                      { dt := dt, temp := t, humidity := h, clouds := c,
                        pressure := p, windSpeed := w, descMain := dsc,
                        icon := ic }

/-- The grouping loop over forecast_data["list"]: stops at the first item
with a missing field (the KeyError), otherwise validates every item. -/
def readAll : List RawItem → Except String (List RawReading)
  | [] => Except.ok []
  | it :: rest =>
      match readReading it with
      | Except.error k => Except.error k
      | Except.ok r =>
          match readAll rest with
          | Except.error k => Except.error k
          | Except.ok rs => Except.ok (r :: rs)

/-- process_forecast_data on a raw payload, with the KeyError of a missing
per-reading field made explicit as an Except.error (the function itself has
no handler; the error propagates to the caller). -/
def process_forecast_data_exc (proba : ℚ → ℚ → ℚ → ℚ → ℚ)
    (setOrder : List String → List String) (dateOf : ℤ → ℤ) (today : ℤ)
    (payload : Option (List RawItem)) : Except String (List DailySummary) :=
  match payload with
  | none => Except.ok []
  | some items =>
      match readAll items with
      | Except.error k => Except.error k
      | Except.ok rs =>
          Except.ok (process_forecast_data proba setOrder dateOf today
            (some rs))

/-!
The /api/forecast endpoint (get_forecast in app.py) and the location
resolvers.  External collaborators (IP geolocation, reverse geocoding, the
HTTP fetch) are parameters; their None results model any caught failure.
-/

structure Location where
  city : String
  country : String
  lat : ℚ
  lng : ℚ
deriving DecidableEq

/-- A successful geocoder.ip result (g with a latlng), with possibly absent
city and country attributes. -/
structure IpResult where
  city : Option String
  country : Option String
  lat : ℚ
  lng : ℚ

/-- A truthy reverse-geocoding result, with possibly absent city/country. -/
structure GeoName where
  city : Option String
  country : Option String

/-- get_location_from_ip from app.py: None when no latlng is available,
otherwise city and country defaulted to "Unknown". -/
def get_location_from_ip (g : Option IpResult) : Option Location :=
  match g with
  | none => none
  | some r =>
      some { city := r.city.getD ("Unknown"),
             country := r.country.getD ("Unknown"),
             lat := r.lat, lng := r.lng }

/-- get_location_from_coordinates from app.py: reverse-geocodes and echoes
the supplied coordinates; None when the collaborator fails. -/
def get_location_from_coordinates (rev : ℚ → ℚ → Option GeoName)
    (lat lng : ℚ) : Option Location :=
  match rev lat lng with
  | none => none
  | some g =>
      some { city := g.city.getD ("Unknown"),
             country := g.country.getD ("Unknown"),
             lat := lat, lng := lng }

/-- The location the endpoint works with: reverse geocoding when both query
parameters parse, IP geolocation otherwise. -/
def resolve_location (latArg lngArg : Option ℚ) (ipRes : Option IpResult)
    (rev : ℚ → ℚ → Option GeoName) : Option Location :=
  match latArg, lngArg with
  | some lat, some lng => get_location_from_coordinates rev lat lng
  | _, _ => get_location_from_ip ipRes

/-- The part of the /api/forecast handler after location resolution: the
credential check, the forecast fetch and the processing step.  A resolved
location of None reaches location["lat"], whose TypeError is caught by the
blanket handler of the route and turned into a 500; a KeyError escaping
process_forecast_data is caught by the same blanket handler (500). -/
def forecast_status_after_location (proba : ℚ → ℚ → ℚ → ℚ → ℚ)
    (setOrder : List String → List String) (dateOf : ℤ → ℤ) (today : ℤ)
    (apiKey : Bool) (fetch : ℚ → ℚ → Option (Option (List RawItem)))
    (loc? : Option Location) : ℕ :=
  if !apiKey then 500
  else
    match loc? with
    | none => 500
    | some loc =>
        match fetch loc.lat loc.lng with
        | none => 500
        | some payload =>
            match process_forecast_data_exc proba setOrder dateOf today
                payload with
            | Except.error _ => 500
            | Except.ok _ => 200

/-- HTTP status of get_forecast (the /api/forecast handler).  `fetch` models
fetch_forecast: none is a falsy/None forecast_data; `some payload` is a
truthy response body, itself carrying `none` when the body has no "list"
key.  A 400 is returned only in the branch without both coordinates, when
IP geolocation fails; every other failure becomes a 500. -/
def get_forecast_status (proba : ℚ → ℚ → ℚ → ℚ → ℚ)
    (setOrder : List String → List String) (dateOf : ℤ → ℤ) (today : ℤ)
    (latArg lngArg : Option ℚ) (ipRes : Option IpResult)
    (rev : ℚ → ℚ → Option GeoName) (apiKey : Bool)
    (fetch : ℚ → ℚ → Option (Option (List RawItem))) : ℕ :=
  match latArg, lngArg with
  | some lat, some lng =>
      forecast_status_after_location proba setOrder dateOf today apiKey fetch
        (get_location_from_coordinates rev lat lng)
  | _, _ =>
      match get_location_from_ip ipRes with
      | none => 400
      | some loc =>
          forecast_status_after_location proba setOrder dateOf today apiKey
            fetch (some loc)

/-!
CLI flow (src/weather/weather_ai.py): current-weather extraction, the
feels-like estimator and the main orchestration.
-/

/-- The fields of the current-weather payload that extract_weather_info
reads.  name and sys.country are read with .get and never raise; the six
others are plain indexing inside a try/except KeyError. -/
structure CurrentRaw where
  name : Option String
  sysCountry : Option String
  mainTemp : Option ℚ
  mainHumidity : Option ℚ
  windSpeed : Option ℚ
  mainFeelsLike : Option ℚ
  weatherDesc : Option String
  mainPressure : Option ℚ
deriving DecidableEq

/-- The dictionary built by extract_weather_info. -/
structure WeatherInfo where
  city : String
  country : String
  temperature : ℚ
  humidity : ℚ
  wind_speed : ℚ
  feels_like : ℚ
  description : String
  pressure : ℚ
deriving DecidableEq

/-- extract_weather_info from weather_ai.py: none models the empty dict
returned by the except KeyError handler when a required field is missing.
The .title() call on the description is presentation formatting (out of
scope per the spec) and is not modelled. -/
def extract_weather_info (data : CurrentRaw) : Option WeatherInfo :=
  match data.mainTemp, data.mainHumidity, data.windSpeed, data.mainFeelsLike,
      data.weatherDesc, data.mainPressure with
  | some t, some h, some w, some f, some dsc, some p =>
      some { city := data.name.getD ("Unknown"),
             country := data.sysCountry.getD (""),
             temperature := pyRound 2 t,
             humidity := h,
             wind_speed := pyRound 2 w,
             feels_like := pyRound 2 f,
             description := dsc,
             pressure := p }
  | _, _, _, _, _, _ => none

/-- Training humidity column of train_prediction_model (weather_ai.py). -/
def training_humidity : List ℚ :=
  [30, 40, 50, 60, 70, 80, 90, 35, 45, 55, 65, 75, 85, 95]

/-- Training temperature column of train_prediction_model (weather_ai.py). -/
def training_temp : List ℚ :=
  [15, 18, 20, 22, 25, 28, 30, 10, 12, 14, 16, 18, 20, 22]

/-- Synthetic feels-like targets: training_temp * 0.9 +
(training_humidity / 100) * 3, elementwise as in the source. -/
def training_feels_like : List ℚ :=
  List.zipWith (fun h t => t * (9/10) + h / 100 * 3)
    training_humidity training_temp

/-- The training triples (humidity, temperature, feels-like target). -/
def olsSamples : List (ℚ × ℚ × ℚ) :=
  training_humidity.zip (training_temp.zip training_feels_like)

/-- Determinant of a 3x3 matrix given row by row. -/
def det3 (a11 a12 a13 a21 a22 a23 a31 a32 a33 : ℚ) : ℚ :=
  a11 * (a22 * a33 - a23 * a32) - a12 * (a21 * a33 - a23 * a31) +
    a13 * (a21 * a32 - a22 * a31)

/-- Modelled from the spec: scikit-learn LinearRegression (external to this
repository) performs ordinary least squares with an intercept.  The fitted
model is embedded as the closed-form solution of the normal equations for
the design (1, humidity, temperature) against the feels-like targets, by
Cramer's rule: (intercept, humidity coefficient, temperature coefficient).
-/
def train_prediction_model : ℚ × ℚ × ℚ :=
  let n : ℚ := olsSamples.length
  let sH := (olsSamples.map fun s => s.1).sum
  let sT := (olsSamples.map fun s => s.2.1).sum
  let sHH := (olsSamples.map fun s => s.1 * s.1).sum
  let sHT := (olsSamples.map fun s => s.1 * s.2.1).sum
  let sTT := (olsSamples.map fun s => s.2.1 * s.2.1).sum
  let sy := (olsSamples.map fun s => s.2.2).sum
  let sHy := (olsSamples.map fun s => s.1 * s.2.2).sum
  let sTy := (olsSamples.map fun s => s.2.1 * s.2.2).sum
  let dA := det3 n sH sT sH sHH sHT sT sHT sTT
  let d0 := det3 sy sH sT sHy sHH sHT sTy sHT sTT
  let d1 := det3 n sy sT sH sHy sHT sT sTy sTT
  let d2 := det3 n sH sy sH sHH sHy sT sHT sTy
  (d0 / dA, d1 / dA, d2 / dA)

/-- predict_feels_like from weather_ai.py: evaluate the fitted linear model
on (humidity, temperature) and round to 2 decimals. -/
def predict_feels_like (humidity temperature : ℚ) : ℚ :=
  pyRound 2 (train_prediction_model.1 +
    train_prediction_model.2.1 * humidity +
    train_prediction_model.2.2 * temperature)

/-- Rain-model training features from train_rain_prediction_model
(app.py). -/
def rain_X_train : List (List ℚ) :=
  [[80, 90, 1005, 5], [75, 85, 1008, 4], [70, 75, 1010, 3],
   [30, 20, 1020, 2], [25, 15, 1022, 1], [35, 25, 1018, 2],
   [85, 95, 1000, 6], [20, 10, 1025, 1], [65, 60, 1012, 3],
   [90, 100, 995, 8]]

/-- Rain labels of train_rain_prediction_model (app.py). -/
def rain_y_train : List ℚ := [1, 1, 1, 0, 0, 0, 1, 0, 1, 1]

/-- Modelled from the spec: scikit-learn LogisticRegression fitting is
external to this repository; per the spec it is deterministic given the
training data and the fixed random seed (random_state=42), so it is taken
as an arbitrary function `fit` of those arguments.
train_rain_prediction_model applies it to the fixed synthetic dataset and
seed, exactly as the source constructs them on every call. -/
def train_rain_prediction_model
    (fit : List (List ℚ) → List ℚ → ℕ → (ℚ → ℚ → ℚ → ℚ → ℚ)) :
    ℚ → ℚ → ℚ → ℚ → ℚ :=
  fit rain_X_train rain_y_train 42

/-- Outcome of one run of the CLI main() under the top-level handler in
weather_ai.py. -/
inductive CliOutcome where
  | locationFailure : CliOutcome
  | fetchFailure : CliOutcome
  | fatalError : String → CliOutcome
  | report : String → WeatherInfo → ℚ → CliOutcome
deriving DecidableEq

/-- main from weather_ai.py, run under the top-level try/except of the
module entry point.  When extract_weather_info returns the empty dict, main
still evaluates weather_info["humidity"]; the KeyError propagates out of
main and is caught by the top-level fatal handler. -/
def main_flow (loc : Option (String × ℚ × ℚ))
    (fetchW : ℚ → ℚ → Option CurrentRaw) : CliOutcome :=
  match loc with
  | none => CliOutcome.locationFailure
  | some (city, lat, lng) =>
      match fetchW lat lng with
      | none => CliOutcome.fetchFailure
      | some raw =>
          match extract_weather_info raw with
          | none => CliOutcome.fatalError ("humidity")
          | some info =>
              CliOutcome.report city info
                (predict_feels_like info.humidity info.temperature)

/-! Concrete payloads used to exercise the pipeline. -/

def demoProba : ℚ → ℚ → ℚ → ℚ → ℚ := fun _ _ _ _ => 0

/-- A constant predict_proba output of one half. -/
def constHalfProba : ℚ → ℚ → ℚ → ℚ → ℚ := fun _ _ _ _ => 1/2

/-- Identity set-iteration order. -/
def idOrder : List String → List String := fun l => l

/-- A set-iteration order that lists the distinct descriptions in reverse
order of first appearance: a legitimate enumeration of the same set. -/
def revOrder : List String → List String := fun l => (firstOccs l).reverse

/-- Identity timestamp-to-date conversion. -/
def idDate : ℤ → ℤ := fun t => t

def demoReadingA : RawReading :=
  { dt := 1, temp := 10, humidity := 1, clouds := 1, pressure := 1000,
    windSpeed := 3, descMain := "Rain", icon := "01d" }

def demoReadingB : RawReading :=
  { dt := 1, temp := 12, humidity := 2, clouds := 2, pressure := 1000,
    windSpeed := 3, descMain := "Clear", icon := "02d" }

def demoReadingC : RawReading :=
  { dt := 1, temp := 11, humidity := 2, clouds := 2, pressure := 1000,
    windSpeed := 3, descMain := "Clear", icon := "02d" }

def demoItems : List RawReading := [demoReadingA, demoReadingB, demoReadingC]

def demoOut : List DailySummary :=
  process_forecast_data demoProba idOrder idDate 0 (some demoItems)

/-- The single summary that demoItems produce under demoProba and idOrder:
one bucket on day 1 with temps 10, 12, 11, humidities and cloud covers
1, 2, 2 (mean 5/3, truncated to 1), descriptions Rain, Clear, Clear. -/
def demoSummary : DailySummary :=
  { date := 1, day := "Friday", min_temp := 10, max_temp := 12, avg_temp := 11,
    humidity := 1, cloud_cover := 1, wind_speed := 3, condition := "Clear",
    icon := "01d", rain_probability := 0, will_rain := false }

theorem demoOut_eval : demoOut = [demoSummary] := by
  simp [demoOut, process_forecast_data, demoItems, demoReadingA, demoReadingB,
    demoReadingC, mkDailySummary, mean, pyMin, pyMax, pyInt, pyRound,
    roundHalfEven, predict_rain_probability, pyMaxBy, weekdayName,
    weekdayNames, idOrder, idDate, demoProba, demoSummary]
  norm_num

/-- An item of a forecast payload whose main.temp key is missing. -/
def demoBadItem : RawItem :=
  { dt := some 1, mainTemp := none, mainHumidity := some 1,
    cloudsAll := some 1, mainPressure := some 1000, windSpeed := some 3,
    weatherMain := some ("Rain"), weatherIcon := some ("01d") }

/-- A current-weather payload whose main.temp key is missing. -/
def demoBadCur : CurrentRaw :=
  { name := some ("City"), sysCountry := none, mainTemp := none,
    mainHumidity := some 50, windSpeed := some 3, mainFeelsLike := some 20,
    weatherDesc := some ("Rain"), mainPressure := some 1000 }

/-- The descriptions of the bucket of readings for one date. -/
def bucketDescriptions (dateOf : ℤ → ℤ) (items : List RawReading) (d : ℤ) :
    List String :=
  (items.filter fun r => dateOf r.dt == d).map (fun r => r.descMain)

/-! Structure of process_forecast_data output. -/

theorem mem_process_forecast_data {proba : ℚ → ℚ → ℚ → ℚ → ℚ}
    {setOrder : List String → List String} {dateOf : ℤ → ℤ} {today : ℤ}
    {items : List RawReading} {s : DailySummary}
    (hs : s ∈ process_forecast_data proba setOrder dateOf today (some items)) :
    ∃ i ∈ ([1, 2, 3, 4] : List ℤ),
      (items.filter fun r => dateOf r.dt == today + i) ≠ [] ∧
        s = mkDailySummary proba setOrder (today + i)
              (items.filter fun r => dateOf r.dt == today + i) := by
  unfold process_forecast_data at hs
  rw [List.mem_filterMap] at hs
  obtain ⟨i, hi, he⟩ := hs
  dsimp only at he
  by_cases hb : (items.filter fun r => dateOf r.dt == today + i).isEmpty
  · rw [if_pos hb] at he
    cases he
  · rw [if_neg hb] at he
    refine ⟨i, hi, ?_, (Option.some.inj he).symm⟩
    intro hnil
    exact hb (by rw [hnil]; rfl)

theorem isEmpty_filter_eq_not_any {α : Type} (p : α → Bool) (l : List α) :
    (l.filter p).isEmpty = !(l.any p) := by
  induction l with
  | nil => rfl
  | cons a rest ih =>
      by_cases ha : p a
      · simp [List.filter_cons, List.any_cons, ha]
      · simp [List.filter_cons, List.any_cons, ha, ih]

theorem process_forecast_data_dates_aux (proba : ℚ → ℚ → ℚ → ℚ → ℚ)
    (setOrder : List String → List String) (dateOf : ℤ → ℤ) (today : ℤ)
    (items : List RawReading) :
    ∀ l : List ℤ,
      (l.filterMap fun i =>
          if (items.filter fun r => dateOf r.dt == today + i).isEmpty then
            none
          else
            some (mkDailySummary proba setOrder (today + i)
              (items.filter fun r => dateOf r.dt == today + i))).map
          (fun s => s.date) =
        (l.filter fun i => items.any fun r => dateOf r.dt == today + i).map
          (fun i => today + i) := by
  intro l
  induction l with
  | nil => rfl
  | cons i rest ih =>
      rw [List.filterMap_cons, List.filter_cons]
      by_cases hb : (items.filter fun r => dateOf r.dt == today + i).isEmpty
      · have hany : (items.any fun r => dateOf r.dt == today + i) = false := by
          have h1 := isEmpty_filter_eq_not_any
            (fun r => dateOf r.dt == today + i) items
          rw [hb] at h1
          cases h : items.any fun r => dateOf r.dt == today + i
          · rfl
          · rw [h] at h1; cases h1
        rw [if_pos hb, hany]
        simpa using ih
      · have hany : (items.any fun r => dateOf r.dt == today + i) = true := by
          have h1 := isEmpty_filter_eq_not_any
            (fun r => dateOf r.dt == today + i) items
          cases h : items.any fun r => dateOf r.dt == today + i
          · rw [h] at h1; exact absurd h1 hb
          · rfl
        rw [if_neg hb, hany]
        simpa [mkDailySummary] using ih

/-! Error propagation of missing fields through the grouping loop. -/

theorem readReading_error_of_missing {it : RawItem}
    (h : hasMissingField it = true) : ∃ k, readReading it = Except.error k := by
  rcases it with ⟨dt, t, hm, c, p, w, dm, ic⟩
  rcases dt with _ | dt
  · exact ⟨("dt"), rfl⟩
  rcases t with _ | t
  · exact ⟨("temp"), rfl⟩
  rcases hm with _ | hm
  · exact ⟨("humidity"), rfl⟩
  rcases c with _ | c
  · exact ⟨("clouds"), rfl⟩
  rcases p with _ | p
  · exact ⟨("pressure"), rfl⟩
  rcases w with _ | w
  · exact ⟨("wind"), rfl⟩
  rcases dm with _ | dm
  · exact ⟨("weather"), rfl⟩
  rcases ic with _ | ic
  · exact ⟨("icon"), rfl⟩
  simp [hasMissingField] at h

theorem readAll_error_of_mem {items : List RawItem} {it : RawItem}
    (hit : it ∈ items) (h : hasMissingField it = true) :
    ∃ k, readAll items = Except.error k := by
  induction items with
  | nil => cases hit
  | cons x rest ih =>
      rcases List.mem_cons.mp hit with hx | hx
      · subst hx
        obtain ⟨k, hk⟩ := readReading_error_of_missing h
        exact ⟨k, by simp [readAll, hk]⟩
      · cases hr : readReading x with
        | error k2 => exact ⟨k2, by simp [readAll, hr]⟩
        | ok r =>
            obtain ⟨k, hk⟩ := ih hx
            exact ⟨k, by simp [readAll, hr, hk]⟩

/-- The normal-equations solution on the fixed synthetic dataset: zero
intercept, 0.03 for humidity, 0.9 for temperature (the targets are an exact
linear function of the features, so least squares recovers it). -/
theorem train_prediction_model_eval :
    train_prediction_model = (0, 3/100, 9/10) := by
  norm_num [train_prediction_model, olsSamples, training_humidity,
    training_temp, training_feels_like, det3]

/-- The fitted coefficients reproduce every training target exactly (zero
residuals), confirming they are the least-squares optimum. -/
theorem train_prediction_model_exact_fit :
    ∀ s ∈ olsSamples,
      train_prediction_model.1 + train_prediction_model.2.1 * s.1 +
          train_prediction_model.2.2 * s.2.1 = s.2.2 := by
  intro s hs
  rw [train_prediction_model_eval]
  fin_cases hs <;> norm_num [olsSamples, training_humidity, training_temp,
    training_feels_like]

/-- C7: in every daily summary emitted by process_forecast_data, the rounded
minimum temperature is at most the rounded mean temperature, which is at
most the rounded maximum temperature. -/
theorem c7_min_avg_max (proba : ℚ → ℚ → ℚ → ℚ → ℚ)
    (setOrder : List String → List String) (dateOf : ℤ → ℤ) (today : ℤ)
    (items : List RawReading) (s : DailySummary)
    (hs : s ∈ process_forecast_data proba setOrder dateOf today (some items)) :
    s.min_temp ≤ s.avg_temp ∧ s.avg_temp ≤ s.max_temp := by
  obtain ⟨i, hi, hne, rfl⟩ := mem_process_forecast_data hs
  have htne :
      ((items.filter fun r => dateOf r.dt == today + i).map
        (fun r => r.temp)) ≠ [] := by
    intro h0
    rw [List.map_eq_nil_iff] at h0
    exact hne h0
  exact ⟨pyRound_mono 1 (pyMin_le_mean htne),
    pyRound_mono 1 (mean_le_pyMax htne)⟩

/-- C7 witness: the concrete demo payload produces a summary that satisfies
the inequality chain. -/
theorem c7_min_avg_max_witness :
    demoSummary ∈ process_forecast_data demoProba idOrder idDate 0
        (some demoItems) ∧
      demoSummary.min_temp ≤ demoSummary.avg_temp ∧
      demoSummary.avg_temp ≤ demoSummary.max_temp := by
  have hmem : demoSummary ∈ process_forecast_data demoProba idOrder idDate 0
      (some demoItems) := by
    show demoSummary ∈ demoOut
    rw [demoOut_eval]
    exact List.mem_singleton.mpr rfl
  exact ⟨hmem, c7_min_avg_max demoProba idOrder idDate 0 demoItems
    demoSummary hmem⟩

/-- C5: the emitted summaries are exactly one per target date today+1 ..
today+4 that has at least one reading, in ascending date order; uncovered
dates are silently omitted. -/
theorem c5_emitted_dates (proba : ℚ → ℚ → ℚ → ℚ → ℚ)
    (setOrder : List String → List String) (dateOf : ℤ → ℤ) (today : ℤ)
    (items : List RawReading) :
    (process_forecast_data proba setOrder dateOf today (some items)).map
        (fun s => s.date) =
      (([1, 2, 3, 4] : List ℤ).filter fun i =>
          items.any fun r => dateOf r.dt == today + i).map
        (fun i => today + i) :=
  process_forecast_data_dates_aux proba setOrder dateOf today items
    [1, 2, 3, 4]

theorem mk_humidity_eq (proba : ℚ → ℚ → ℚ → ℚ → ℚ)
    (setOrder : List String → List String) (d : ℤ)
    (bucket : List RawReading) (h : ∀ r ∈ bucket, 0 ≤ r.humidity) :
    (mkDailySummary proba setOrder d bucket).humidity =
      ⌊mean (bucket.map fun r => r.humidity)⌋ := by
  have hnn : 0 ≤ mean (bucket.map fun r => r.humidity) := by
    apply mean_nonneg
    intro y hy
    rw [List.mem_map] at hy
    obtain ⟨r, hr, rfl⟩ := hy
    exact h r hr
  show pyInt (mean (bucket.map fun r => r.humidity)) = _
  rw [pyInt_eq_floor hnn]

theorem mk_cloud_eq (proba : ℚ → ℚ → ℚ → ℚ → ℚ)
    (setOrder : List String → List String) (d : ℤ)
    (bucket : List RawReading) (h : ∀ r ∈ bucket, 0 ≤ r.clouds) :
    (mkDailySummary proba setOrder d bucket).cloud_cover =
      ⌊mean (bucket.map fun r => r.clouds)⌋ := by
  have hnn : 0 ≤ mean (bucket.map fun r => r.clouds) := by
    apply mean_nonneg
    intro y hy
    rw [List.mem_map] at hy
    obtain ⟨r, hr, rfl⟩ := hy
    exact h r hr
  show pyInt (mean (bucket.map fun r => r.clouds)) = _
  rw [pyInt_eq_floor hnn]

/-- C2 (corrected): the humidity and cloud_cover fields of an emitted
summary are the means of the readings of that date truncated toward zero
(int(), the floor for the non-negative values that occur), not the nearest
integer. -/
theorem c2_humidity_cloud_floor (proba : ℚ → ℚ → ℚ → ℚ → ℚ)
    (setOrder : List String → List String) (dateOf : ℤ → ℤ) (today : ℤ)
    (items : List RawReading) (s : DailySummary)
    (hh : ∀ r ∈ items, 0 ≤ r.humidity) (hc : ∀ r ∈ items, 0 ≤ r.clouds)
    (hs : s ∈ process_forecast_data proba setOrder dateOf today (some items)) :
    s.humidity =
        ⌊mean ((items.filter fun r => dateOf r.dt == s.date).map
          fun r => r.humidity)⌋ ∧
      s.cloud_cover =
        ⌊mean ((items.filter fun r => dateOf r.dt == s.date).map
          fun r => r.clouds)⌋ := by
  obtain ⟨i, hi, hne, rfl⟩ := mem_process_forecast_data hs
  have hsub : ∀ r ∈ (items.filter fun r => dateOf r.dt == today + i),
      r ∈ items := fun r hr => (List.mem_filter.mp hr).1
  have hdate :
      (mkDailySummary proba setOrder (today + i)
        (items.filter fun r => dateOf r.dt == today + i)).date = today + i :=
    rfl
  rw [hdate]
  exact ⟨mk_humidity_eq proba setOrder (today + i) _
      (fun r hr => hh r (hsub r hr)),
    mk_cloud_eq proba setOrder (today + i) _
      (fun r hr => hc r (hsub r hr))⟩

/-- C2 counterexample: for the demo payload the mean humidity of the single
bucket is 5/3, the nearest integer is 2 (strictly nearer than 1), yet the
emitted humidity is 1, because int() truncates. -/
theorem c2_truncation_counterexample :
    (demoOut.map fun s => s.humidity) = [1] ∧
      mean (demoItems.map fun r => r.humidity) = 5/3 ∧
      |(5/3 : ℚ) - 2| < |(5/3 : ℚ) - 1| := by
  refine ⟨?_, ?_, ?_⟩
  · rw [demoOut_eval]; rfl
  · norm_num [demoItems, demoReadingA, demoReadingB, demoReadingC, mean]
  · have h1 : |(5/3 : ℚ) - 2| = 1/3 := by
      rw [abs_of_nonpos (by norm_num)]
      norm_num
    have h2 : |(5/3 : ℚ) - 1| = 2/3 := by
      rw [abs_of_nonneg (by norm_num)]
      norm_num
    rw [h1, h2]
    norm_num

/-- C2 witness: the demo summary, whose readings are non-negative, has
humidity and cloud cover equal to the floors of the bucket means. -/
theorem c2_humidity_cloud_floor_witness :
    demoSummary.humidity =
        ⌊mean ((demoItems.filter fun r =>
          idDate r.dt == demoSummary.date).map fun r => r.humidity)⌋ ∧
      demoSummary.cloud_cover =
        ⌊mean ((demoItems.filter fun r =>
          idDate r.dt == demoSummary.date).map fun r => r.clouds)⌋ := by
  have hmem : demoSummary ∈ process_forecast_data demoProba idOrder idDate 0
      (some demoItems) := by
    show demoSummary ∈ demoOut
    rw [demoOut_eval]
    exact List.mem_singleton.mpr rfl
  exact c2_humidity_cloud_floor demoProba idOrder idDate 0 demoItems
    demoSummary (by decide) (by decide) hmem

/-- C1 (corrected): for any iteration order of the description set (any
enumeration with the same members), the emitted condition is a description
of that date with maximal count among the descriptions of the date.  The
choice among tied maxima follows the set iteration order, which Python does
not tie to first-encounter order. -/
theorem c1_condition_mode (proba : ℚ → ℚ → ℚ → ℚ → ℚ)
    (setOrder : List String → List String) (dateOf : ℤ → ℤ) (today : ℤ)
    (items : List RawReading) (s : DailySummary)
    (hso : ∀ (l : List String) (a : String), a ∈ setOrder l ↔ a ∈ l)
    (hs : s ∈ process_forecast_data proba setOrder dateOf today (some items)) :
    s.condition ∈ bucketDescriptions dateOf items s.date ∧
      ∀ d ∈ bucketDescriptions dateOf items s.date,
        (bucketDescriptions dateOf items s.date).count d ≤
          (bucketDescriptions dateOf items s.date).count s.condition := by
  obtain ⟨i, hi, hne, rfl⟩ := mem_process_forecast_data hs
  have hdate :
      (mkDailySummary proba setOrder (today + i)
        (items.filter fun r => dateOf r.dt == today + i)).date = today + i :=
    rfl
  rw [hdate]
  have hcond :
      (mkDailySummary proba setOrder (today + i)
          (items.filter fun r => dateOf r.dt == today + i)).condition =
        pyMaxBy
          (fun a => (bucketDescriptions dateOf items (today + i)).count a)
          (setOrder (bucketDescriptions dateOf items (today + i))) := rfl
  rw [hcond]
  have hdne : bucketDescriptions dateOf items (today + i) ≠ [] := by
    intro h0
    unfold bucketDescriptions at h0
    rw [List.map_eq_nil_iff] at h0
    exact hne h0
  obtain ⟨a, ha⟩ := List.exists_mem_of_ne_nil _ hdne
  have hsne : setOrder (bucketDescriptions dateOf items (today + i)) ≠ [] :=
    List.ne_nil_of_mem ((hso _ a).mpr ha)
  constructor
  · exact (hso _ _).mp (pyMaxBy_mem _ hsne)
  · intro d hd
    exact le_key_pyMaxBy
      (fun a => (bucketDescriptions dateOf items (today + i)).count a)
      ((hso _ d).mpr hd)

/-- C1 witness: for the demo payload the emitted condition Clear is a
maximal-count description of the day and its count dominates that of
Rain. -/
theorem c1_condition_mode_witness :
    demoSummary.condition ∈
        bucketDescriptions idDate demoItems demoSummary.date ∧
      (bucketDescriptions idDate demoItems demoSummary.date).count
          ("Rain") ≤
        (bucketDescriptions idDate demoItems demoSummary.date).count
          demoSummary.condition := by
  have hmem : demoSummary ∈ process_forecast_data demoProba idOrder idDate 0
      (some demoItems) := by
    show demoSummary ∈ demoOut
    rw [demoOut_eval]
    exact List.mem_singleton.mpr rfl
  have h := c1_condition_mode demoProba idOrder idDate 0 demoItems
    demoSummary (fun l a => Iff.rfl) hmem
  exact ⟨h.1, h.2 ("Rain") (by decide)⟩

def demoTieItems : List RawReading := [demoReadingA, demoReadingB]

def demoTieOut : List DailySummary :=
  process_forecast_data demoProba revOrder idDate 0 (some demoTieItems)

/-- C1 counterexample: the bucket descriptions are Rain then Clear, tied
with count 1 each; the first-encountered description is Rain (the tie
winner the claim requires), the reversed-but-legitimate set enumeration
lists Clear before Rain, and the emitted condition is then Clear, not
Rain. -/
theorem c1_tie_counterexample :
    (demoTieOut.map fun s => s.condition) = [("Clear")] ∧
      pyMaxBy (fun a => (["Rain", "Clear"] : List String).count a)
          (firstOccs ["Rain", "Clear"]) = ("Rain") ∧
      revOrder ["Rain", "Clear"] = ["Clear", "Rain"] := by
  refine ⟨?_, by decide, by decide⟩
  simp [demoTieOut, process_forecast_data, demoTieItems, demoReadingA,
    demoReadingB, mkDailySummary, revOrder, firstOccs, idDate, pyMaxBy]

/-- C6: when the predict_proba output is a probability in [0, 1] (as
scikit-learn guarantees), predict_rain_probability lies in [0, 100]; and in
every emitted summary the rain probability is in [0, 100] and will_rain
holds exactly when it strictly exceeds 50 (false at exactly 50). -/
theorem c6_rain_probability_bounds (proba : ℚ → ℚ → ℚ → ℚ → ℚ)
    (hp : ∀ a b c d, 0 ≤ proba a b c d ∧ proba a b c d ≤ 1) :
    (∀ h c p w, 0 ≤ predict_rain_probability proba h c p w ∧
        predict_rain_probability proba h c p w ≤ 100) ∧
      ∀ (setOrder : List String → List String) (dateOf : ℤ → ℤ) (today : ℤ)
        (payload : Option (List RawReading)) (s : DailySummary),
        s ∈ process_forecast_data proba setOrder dateOf today payload →
        (0 ≤ s.rain_probability ∧ s.rain_probability ≤ 100) ∧
          (s.will_rain = true ↔ 50 < s.rain_probability) := by
  have hbounds : ∀ h c p w, 0 ≤ predict_rain_probability proba h c p w ∧
      predict_rain_probability proba h c p w ≤ 100 := by
    intro h c p w
    obtain ⟨h0, h1⟩ := hp h c p w
    constructor
    · have hlo : ((0 : ℤ) : ℚ) ≤ proba h c p w * 100 := by
        push_cast; nlinarith
      simpa using intCast_le_pyRound 1 hlo
    · have hhi : proba h c p w * 100 ≤ ((100 : ℤ) : ℚ) := by
        push_cast; nlinarith
      simpa using pyRound_le_intCast 1 hhi
  refine ⟨hbounds, ?_⟩
  intro setOrder dateOf today payload s hs
  cases payload with
  | none => cases hs
  | some items =>
      obtain ⟨i, hi, hne, rfl⟩ := mem_process_forecast_data hs
      constructor
      · exact hbounds _ _ _ _
      · show decide (50 < predict_rain_probability proba _ _ _ _) = true ↔ _
        rw [decide_eq_true_eq]
        exact Iff.rfl

/-- C6 witness: with a constant predict_proba output of one half, the
prediction at the first training row is within the bounds. -/
theorem c6_rain_probability_bounds_witness :
    0 ≤ predict_rain_probability constHalfProba 80 90 1005 5 ∧
      predict_rain_probability constHalfProba 80 90 1005 5 ≤ 100 :=
  (c6_rain_probability_bounds constHalfProba
    (fun a b c d => by norm_num [constHalfProba])).1 80 90 1005 5

theorem after_location_ne_400 (proba : ℚ → ℚ → ℚ → ℚ → ℚ)
    (setOrder : List String → List String) (dateOf : ℤ → ℤ) (today : ℤ)
    (apiKey : Bool) (fetch : ℚ → ℚ → Option (Option (List RawItem)))
    (loc? : Option Location) :
    forecast_status_after_location proba setOrder dateOf today apiKey fetch
      loc? ≠ 400 := by
  unfold forecast_status_after_location
  rcases apiKey with _ | _
  · norm_num
  · rcases loc? with _ | loc
    · norm_num
    · rcases hf : fetch loc.lat loc.lng with _ | payload
      · simp [hf]
      · rcases he : process_forecast_data_exc proba setOrder dateOf today
            payload with k | l
        · simp [hf, he]
        · simp [hf, he]

theorem after_location_eq_200_iff (proba : ℚ → ℚ → ℚ → ℚ → ℚ)
    (setOrder : List String → List String) (dateOf : ℤ → ℤ) (today : ℤ)
    (apiKey : Bool) (fetch : ℚ → ℚ → Option (Option (List RawItem)))
    (loc? : Option Location) :
    forecast_status_after_location proba setOrder dateOf today apiKey fetch
        loc? = 200 ↔
      ∃ loc payload summaries, loc? = some loc ∧ apiKey = true ∧
        fetch loc.lat loc.lng = some payload ∧
        process_forecast_data_exc proba setOrder dateOf today payload =
          Except.ok summaries := by
  unfold forecast_status_after_location
  rcases apiKey with _ | _
  · simp
  · rcases loc? with _ | loc
    · simp
    · rcases hf : fetch loc.lat loc.lng with _ | payload
      · simp [hf]
      · rcases he : process_forecast_data_exc proba setOrder dateOf today
            payload with k | l
        · simp [hf, he]
        · simp [hf, he]

theorem after_location_eq_or (proba : ℚ → ℚ → ℚ → ℚ → ℚ)
    (setOrder : List String → List String) (dateOf : ℤ → ℤ) (today : ℤ)
    (apiKey : Bool) (fetch : ℚ → ℚ → Option (Option (List RawItem)))
    (loc? : Option Location) :
    forecast_status_after_location proba setOrder dateOf today apiKey fetch
        loc? = 200 ∨
      forecast_status_after_location proba setOrder dateOf today apiKey
        fetch loc? = 500 := by
  unfold forecast_status_after_location
  rcases apiKey with _ | _
  · norm_num
  · rcases loc? with _ | loc
    · norm_num
    · rcases hf : fetch loc.lat loc.lng with _ | payload
      · simp [hf]
      · rcases he : process_forecast_data_exc proba setOrder dateOf today
            payload with k | l
        · simp [hf, he]
        · simp [hf, he]

/-- C3 (corrected): the handler returns 400 exactly when both coordinates
are not supplied and IP geolocation fails; it returns 200 exactly when a
location resolves, the credential is present, the fetch succeeds and
processing raises nothing; every other case, including a reverse-geocoding
failure with explicit coordinates, is a 500. -/
theorem c3_status_characterization (proba : ℚ → ℚ → ℚ → ℚ → ℚ)
    (setOrder : List String → List String) (dateOf : ℤ → ℤ) (today : ℤ)
    (latArg lngArg : Option ℚ) (ipRes : Option IpResult)
    (rev : ℚ → ℚ → Option GeoName) (apiKey : Bool)
    (fetch : ℚ → ℚ → Option (Option (List RawItem))) :
    (get_forecast_status proba setOrder dateOf today latArg lngArg ipRes rev
          apiKey fetch = 400 ↔
        ((latArg = none ∨ lngArg = none) ∧
          get_location_from_ip ipRes = none)) ∧
      (get_forecast_status proba setOrder dateOf today latArg lngArg ipRes
            rev apiKey fetch = 200 ↔
        ∃ loc payload summaries,
          resolve_location latArg lngArg ipRes rev = some loc ∧
            apiKey = true ∧ fetch loc.lat loc.lng = some payload ∧
            process_forecast_data_exc proba setOrder dateOf today payload =
              Except.ok summaries) ∧
      (get_forecast_status proba setOrder dateOf today latArg lngArg ipRes
            rev apiKey fetch = 200 ∨
        get_forecast_status proba setOrder dateOf today latArg lngArg ipRes
            rev apiKey fetch = 400 ∨
        get_forecast_status proba setOrder dateOf today latArg lngArg ipRes
            rev apiKey fetch = 500) := by
  rcases latArg with _ | lat <;> rcases lngArg with _ | lng
  · rcases hip : get_location_from_ip ipRes with _ | loc
    · refine ⟨by simp [get_forecast_status, hip], ?_, ?_⟩
      · simp [get_forecast_status, resolve_location, hip]
      · simp [get_forecast_status, hip]
    · refine ⟨?_, ?_, ?_⟩
      · simp only [get_forecast_status, hip]
        simp [after_location_ne_400 proba setOrder dateOf today apiKey fetch
          (some loc)]
      · simp only [get_forecast_status, resolve_location, hip]
        exact after_location_eq_200_iff proba setOrder dateOf today apiKey
          fetch (some loc)
      · simp only [get_forecast_status, hip]
        rcases after_location_eq_or proba setOrder dateOf today apiKey fetch
            (some loc) with h | h
        · exact Or.inl h
        · exact Or.inr (Or.inr h)
  · rcases hip : get_location_from_ip ipRes with _ | loc
    · refine ⟨by simp [get_forecast_status, hip], ?_, ?_⟩
      · simp [get_forecast_status, resolve_location, hip]
      · simp [get_forecast_status, hip]
    · refine ⟨?_, ?_, ?_⟩
      · simp only [get_forecast_status, hip]
        simp [after_location_ne_400 proba setOrder dateOf today apiKey fetch
          (some loc)]
      · simp only [get_forecast_status, resolve_location, hip]
        exact after_location_eq_200_iff proba setOrder dateOf today apiKey
          fetch (some loc)
      · simp only [get_forecast_status, hip]
        rcases after_location_eq_or proba setOrder dateOf today apiKey fetch
            (some loc) with h | h
        · exact Or.inl h
        · exact Or.inr (Or.inr h)
  · rcases hip : get_location_from_ip ipRes with _ | loc
    · refine ⟨by simp [get_forecast_status, hip], ?_, ?_⟩
      · simp [get_forecast_status, resolve_location, hip]
      · simp [get_forecast_status, hip]
    · refine ⟨?_, ?_, ?_⟩
      · simp only [get_forecast_status, hip]
        simp [after_location_ne_400 proba setOrder dateOf today apiKey fetch
          (some loc)]
      · simp only [get_forecast_status, resolve_location, hip]
        exact after_location_eq_200_iff proba setOrder dateOf today apiKey
          fetch (some loc)
      · simp only [get_forecast_status, hip]
        rcases after_location_eq_or proba setOrder dateOf today apiKey fetch
            (some loc) with h | h
        · exact Or.inl h
        · exact Or.inr (Or.inr h)
  · refine ⟨?_, ?_, ?_⟩
    · simp only [get_forecast_status]
      simp [after_location_ne_400 proba setOrder dateOf today apiKey fetch
        (get_location_from_coordinates rev lat lng)]
    · simp only [get_forecast_status, resolve_location]
      exact after_location_eq_200_iff proba setOrder dateOf today apiKey
        fetch (get_location_from_coordinates rev lat lng)
    · simp only [get_forecast_status]
      rcases after_location_eq_or proba setOrder dateOf today apiKey fetch
          (get_location_from_coordinates rev lat lng) with h | h
      · exact Or.inl h
      · exact Or.inr (Or.inr h)

/-- A reverse-geocoding collaborator that always fails. -/
def noGeo : ℚ → ℚ → Option GeoName := fun _ _ => none

/-- A fetch collaborator that always returns a payload with an empty
reading list. -/
def okFetch : ℚ → ℚ → Option (Option (List RawItem)) :=
  fun _ _ => some (some [])

/-- C3 counterexample: explicit coordinates with a failing reverse
geocoder, a configured credential and a working fetch yield HTTP 500 (the
claim requires 400 there, and allows 500 only for a missing credential or
a failed fetch). -/
theorem c3_reverse_geocode_counterexample :
    get_forecast_status demoProba idOrder idDate 0 (some (515/10))
      (some (-12/100)) none noGeo true okFetch = 500 := rfl

/-- C4 (corrected): only the CLI extraction path turns a missing field into
an empty result — extract_weather_info returns the empty dict exactly when
a required field is missing.  The aggregation path has no handler: a
missing per-reading field makes process_forecast_data raise, and the error
propagates instead of producing an empty result. -/
theorem c4_missing_field_handling :
    (∀ data : CurrentRaw,
        extract_weather_info data = none ↔
          (data.mainTemp = none ∨ data.mainHumidity = none ∨
            data.windSpeed = none ∨ data.mainFeelsLike = none ∨
            data.weatherDesc = none ∨ data.mainPressure = none)) ∧
      ∀ (proba : ℚ → ℚ → ℚ → ℚ → ℚ)
        (setOrder : List String → List String) (dateOf : ℤ → ℤ) (today : ℤ)
        (items : List RawItem) (it : RawItem),
        it ∈ items → hasMissingField it = true →
        ∃ k, process_forecast_data_exc proba setOrder dateOf today
            (some items) = Except.error k := by
  constructor
  · intro data
    rcases data with ⟨nm, co, t, hm, w, f, dsc, p⟩
    rcases t with _ | t <;> rcases hm with _ | hm <;> rcases w with _ | w <;>
      rcases f with _ | f <;> rcases dsc with _ | dsc <;>
        rcases p with _ | p <;> simp [extract_weather_info]
  · intro proba setOrder dateOf today items it hit hmiss
    obtain ⟨k, hk⟩ := readAll_error_of_mem hit hmiss
    exact ⟨k, by simp [process_forecast_data_exc, hk]⟩

/-- C4 witness: a current-weather payload and a forecast item that both
lack main.temp — the CLI extraction yields the empty dict, the aggregation
path yields an error. -/
theorem c4_missing_field_handling_witness :
    extract_weather_info demoBadCur = none ∧
      ∃ k, process_forecast_data_exc demoProba idOrder idDate 0
          (some [demoBadItem]) = Except.error k := by
  constructor
  · exact (c4_missing_field_handling.1 demoBadCur).mpr (Or.inl rfl)
  · exact c4_missing_field_handling.2 demoProba idOrder idDate 0
      [demoBadItem] demoBadItem (List.mem_singleton.mpr rfl) rfl

/-- C4 counterexample: a payload whose only item lacks main.temp makes the
aggregation path return an error (the KeyError), not the empty list the
claim requires. -/
theorem c4_aggregation_counterexample :
    process_forecast_data_exc demoProba idOrder idDate 0
        (some [demoBadItem]) = Except.error ("temp") ∧
      process_forecast_data_exc demoProba idOrder idDate 0
        (some [demoBadItem]) ≠ Except.ok [] := by
  constructor
  · rfl
  · intro h
    cases h

/-- C8: the rain classifier is deterministic across fresh fits — the
repository rebuilds the identical training matrix, labels and seed on
every call, and the external fit is a function of them, so two fits give
the same probability on every input. -/
theorem c8_classifier_deterministic
    (fit : List (List ℚ) → List ℚ → ℕ → (ℚ → ℚ → ℚ → ℚ → ℚ))
    (h c p w : ℚ) :
    predict_rain_probability (train_rain_prediction_model fit) h c p w =
      predict_rain_probability (train_rain_prediction_model fit) h c p w :=
  rfl

/-- C9: the feels-like training targets are exactly 0.9 * temperature +
0.03 * humidity, and since the least-squares fit recovers that linear map
exactly, every prediction is that expression rounded to 2 decimals. -/
theorem c9_feels_like_closed_form :
    (∀ h t : ℚ,
        predict_feels_like h t = pyRound 2 ((9/10) * t + (3/100) * h)) ∧
      training_feels_like =
        List.zipWith (fun h t => (9/10) * t + (3/100) * h)
          training_humidity training_temp := by
  constructor
  · intro h t
    unfold predict_feels_like
    rw [train_prediction_model_eval]
    show pyRound 2 (0 + 3/100 * h + 9/10 * t) = pyRound 2 _
    congr 1
    ring
  · norm_num [training_feels_like, training_humidity, training_temp]

/-- C10: whenever the fetched current-weather payload makes
extract_weather_info return the empty dict, main indexes
weather_info["humidity"] anyway, so the run ends in the top-level fatal
handler with the KeyError — never in the graceful empty-dict guard of
display_weather_summary. -/
theorem c10_cli_fatal_keyerror (city : String) (lat lng : ℚ)
    (fetchW : ℚ → ℚ → Option CurrentRaw) (raw : CurrentRaw)
    (hf : fetchW lat lng = some raw)
    (he : extract_weather_info raw = none) :
    main_flow (some (city, lat, lng)) fetchW =
      CliOutcome.fatalError ("humidity") := by
  simp [main_flow, hf, he]

/-- C10 witness: the demo current-weather payload without main.temp drives
the CLI run into the fatal handler. -/
theorem c10_cli_fatal_keyerror_witness :
    main_flow (some (("City"), 1, 2)) (fun _ _ => some demoBadCur) =
      CliOutcome.fatalError ("humidity") :=
  c10_cli_fatal_keyerror ("City") 1 2 (fun _ _ => some demoBadCur)
    demoBadCur rfl rfl
